import Mathlib

/-!
# Verification of the tim2dump TIM2 parser and pixel decoder

A shallow embedding of the TIM2 container parser and pixel/palette
decoder from `src/tim2_types.h` / `src/tim2_parser.h`.  Machine
integers are modelled as `Nat` with explicit `% 256` (or a mask) where
the C++ narrows; byte buffers are `List Nat`; fallible parsing returns
`Except`/`Option`.  Out-of-bounds buffer reads are undefined behaviour
in the source; the embedding reads `0` there (no verified property
depends on that case).
-/

namespace Tim2

/-- `Color32` (RGBA8).  The C++ default constructor initializes
`r = g = b = 0` and `a = 255`. -/
structure Color32 where
  r : Nat
  g : Nat
  b : Nat
  a : Nat
deriving Repr, DecidableEq

/-- The value a C++ `Color32 c{};` declaration produces: the default
constructor, i.e. opaque black `(0,0,0,255)`. -/
def Color32.init : Color32 := ⟨0, 0, 0, 255⟩

/-- `Color16::toColor32`: decode a 16-bit 5:5:5:1 value.  Each
`static_cast<uint8_t>` is modelled by `% 256`. -/
def Color16.toColor32 (value : Nat) : Color32 :=
  { r := (((value &&& 0x001F) <<< 3) ||| ((value &&& 0x001F) >>> 2)) % 256
    g := (((value &&& 0x03E0) >>> 2) ||| ((value &&& 0x03E0) >>> 7)) % 256
    b := (((value &&& 0x7C00) >>> 7) ||| ((value &&& 0x7C00) >>> 12)) % 256
    a := if value &&& 0x8000 ≠ 0 then 255 else 0 }

/-- `PictureHeader` (48 bytes on disk).  Fields are the numeric values
of the packed little-endian struct fields. -/
structure PictureHeader where
  totalSize : Nat
  clutSize : Nat
  imageSize : Nat
  headerSize : Nat
  clutColors : Nat
  pictFormat : Nat
  mipMapTextures : Nat
  clutType : Nat
  imageType : Nat
  imageWidth : Nat
  imageHeight : Nat
  gsTex0 : Nat
  gsTex1 : Nat
  gsTexaFbaPabe : Nat
  gsTexClut : Nat
deriving Repr, DecidableEq

/-- `PictureHeader::getImagePixelFormat` (the raw `imageType` byte;
`TIM2_RGB16 = 1`, `TIM2_RGB24 = 2`, `TIM2_RGB32 = 3`, `TIM2_IDTEX4 = 4`,
`TIM2_IDTEX8 = 5`). -/
def PictureHeader.getImagePixelFormat (h : PictureHeader) : Nat := h.imageType

/-- `PictureHeader::getClutPixelFormat` (low 6 bits of `clutType`). -/
def PictureHeader.getClutPixelFormat (h : PictureHeader) : Nat := h.clutType &&& 0x3F

/-- `PictureHeader::isClutCSM2` (bit 7 of `clutType`). -/
def PictureHeader.isClutCSM2 (h : PictureHeader) : Bool :=
  decide (h.clutType &&& 0x80 ≠ 0)

/-- `PictureHeader::isClutCompound` (bit 6 of `clutType`). -/
def PictureHeader.isClutCompound (h : PictureHeader) : Bool :=
  decide (h.clutType &&& 0x40 ≠ 0)

/-- `PictureHeader::hasClut`: `clutSize > 0` and CLUT format is not
`TIM2_NONE`. -/
def PictureHeader.hasClut (h : PictureHeader) : Bool :=
  decide (0 < h.clutSize) && decide (h.getClutPixelFormat ≠ 0)

/-- `PictureHeader::hasMipMaps`. -/
def PictureHeader.hasMipMaps (h : PictureHeader) : Bool :=
  decide (1 < h.mipMapTextures)

/-- `MipMapHeader`: two GS registers plus the per-level byte sizes. -/
structure MipMapHeader where
  gsMiptbp1 : Nat
  gsMiptbp2 : Nat
  sizes : List Nat
deriving Repr, DecidableEq

/-- `ExtendedHeader` (16 bytes at the start of user space). -/
structure ExtendedHeader where
  exHeaderId : List Nat
  userSpaceSize : Nat
  userDataSize : Nat
  reservedWord : Nat
deriving Repr, DecidableEq

/-- `ExtendedHeader::isValid`: signature bytes `'e','X','t','\0'`. -/
def ExtendedHeader.isValid (e : ExtendedHeader) : Bool :=
  e.exHeaderId == [101, 88, 116, 0]

/-- `Picture`: one parsed picture block. -/
structure Picture where
  header : PictureHeader
  mipMapHeader : Option MipMapHeader
  userData : List Nat
  imageData : List Nat
  clutData : List Nat
  extHeader : Option ExtendedHeader
  comment : List Nat
deriving Repr, DecidableEq

/-- `Picture::getMipMapWidth`: `max(1, imageWidth >> level)`. -/
def Picture.getMipMapWidth (p : Picture) (level : Nat) : Nat :=
  max 1 (p.header.imageWidth >>> level)

/-- `Picture::getMipMapHeight`: `max(1, imageHeight >> level)`. -/
def Picture.getMipMapHeight (p : Picture) (level : Nat) : Nat :=
  max 1 (p.header.imageHeight >>> level)

/-- `Picture::getImageOffset`: 0 for level 0 or when no mipmap header;
otherwise the sum of the sizes of all strictly lower levels. -/
def Picture.getImageOffset (p : Picture) (mipLevel : Nat) : Nat :=
  match p.mipMapHeader with
  | none => 0
  | some m => if mipLevel = 0 then 0 else (m.sizes.take mipLevel).sum

/-- The CSM1 "compound" palette index remap: inside each 32-entry
block, `[8,16)` maps up by 8 and `[16,24)` down by 8. -/
def csm1CompoundIndex (i : Nat) : Nat :=
  let block := i / 32
  let localIdx := i % 32
  let localIdx :=
    if 8 ≤ localIdx ∧ localIdx < 16 then localIdx + 8
    else if 16 ≤ localIdx ∧ localIdx < 24 then localIdx - 8
    else localIdx
  block * 32 + localIdx

/-- Decode one CLUT entry at (already remapped) `index` from the raw
CLUT bytes, per the declared CLUT pixel format (the `switch (fmt)` body
of `Picture::getClutColors`).  An unknown format leaves the
default-constructed color. -/
def clutEntryAt (fmt : Nat) (data : List Nat) (index : Nat) : Color32 :=
  if fmt = 1 then
    Color16.toColor32 (data.getD (index * 2) 0 + 256 * data.getD (index * 2 + 1) 0)
  else if fmt = 2 then
    { r := data.getD (index * 3) 0
      g := data.getD (index * 3 + 1) 0
      b := data.getD (index * 3 + 2) 0
      a := 255 }
  else if fmt = 3 then
    { r := data.getD (index * 4) 0
      g := data.getD (index * 4 + 1) 0
      b := data.getD (index * 4 + 2) 0
      a := data.getD (index * 4 + 3) 0 }
  else Color32.init

/-- `Picture::getClutColors`: empty without a CLUT; otherwise
`clutColors` entries, with the CSM1-compound index remap applied before
each lookup. -/
def Picture.getClutColors (p : Picture) : List Color32 :=
  if p.header.hasClut = false then []
  else
    let fmt := p.header.getClutPixelFormat
    let isCompound := p.header.isClutCompound
    (List.range p.header.clutColors).map fun i =>
      let index :=
        if p.header.isClutCSM2 = false ∧ isCompound = true then csm1CompoundIndex i
        else i
      clutEntryAt fmt p.clutData index

/-- `Picture::getPixelColor`: decode one pixel at `(x, y)` of a mip
level, dispatching on the image pixel format. -/
def Picture.getPixelColor (p : Picture) (x y mipLevel : Nat) : Color32 :=
  let offset := p.getImageOffset mipLevel
  let width := p.getMipMapWidth mipLevel
  let data := p.imageData.drop offset
  let fmt := p.header.getImagePixelFormat
  if fmt = 3 then
    let idx := (y * width + x) * 4
    ⟨data.getD idx 0, data.getD (idx + 1) 0, data.getD (idx + 2) 0, data.getD (idx + 3) 0⟩
  else if fmt = 2 then
    let idx := (y * width + x) * 3
    ⟨data.getD idx 0, data.getD (idx + 1) 0, data.getD (idx + 2) 0, 255⟩
  else if fmt = 1 then
    let idx := (y * width + x) * 2
    Color16.toColor32 (data.getD idx 0 + 256 * data.getD (idx + 1) 0)
  else if fmt = 5 then
    if p.header.hasClut then
      let idx := y * width + x
      let colorIdx := data.getD idx 0
      let colors := p.getClutColors
      if colorIdx < colors.length then colors.getD colorIdx Color32.init else Color32.init
    else Color32.init
  else if fmt = 4 then
    if p.header.hasClut then
      let pixelIdx := y * width + x
      let packed := data.getD (pixelIdx / 2) 0
      let colorIdx := if pixelIdx % 2 = 1 then packed >>> 4 else packed &&& 0x0F
      let colors := p.getClutColors
      if colorIdx < colors.length then colors.getD colorIdx Color32.init else Color32.init
    else Color32.init
  else Color32.init

/-- `Picture::decodeImage`: empty for an out-of-range mip level;
otherwise the row-major `width × height` grid of decoded pixels
(`result[y*width + x] = getPixelColor(x, y, mipLevel)`). -/
def Picture.decodeImage (p : Picture) (mipLevel : Nat) : List Color32 :=
  if p.header.mipMapTextures ≤ mipLevel then []
  else
    let width := p.getMipMapWidth mipLevel
    let height := p.getMipMapHeight mipLevel
    (List.range height).flatMap fun y =>
      (List.range width).map fun x => p.getPixelColor x y mipLevel

/-! ## The format parser (`TIM2Parser`)

The byte stream is modelled as a list of bytes plus a cursor.  A read
of `n` bytes fails exactly when fewer than `n` bytes remain
(`ifstream::read` sets the fail bit on a short read, and every parse
routine checks it); a seek always succeeds, as `seekg` does for input
file streams. -/

/-- The read cursor over the input bytes. -/
structure ByteStream where
  data : List Nat
  pos : Nat
deriving Repr, DecidableEq, DecidableEq

/-- A bounds-checked read of `n` bytes: fails (like `ifstream::read`
followed by the `good()` check) when fewer than `n` bytes remain. -/
def readBytes (n : Nat) (st : ByteStream) : Option (List Nat × ByteStream) :=
  if st.pos + n ≤ st.data.length then
    some ((st.data.drop st.pos).take n, ⟨st.data, st.pos + n⟩)
  else none

/-- Assemble a little-endian number from a byte list (first byte is
least significant). -/
def leNat (bs : List Nat) : Nat :=
  bs.foldr (fun b acc => b + 256 * acc) 0

/-- `TIM2Parser::alignOffset`: round `offset` up to a multiple of
`alignment`. -/
def alignOffset (offset alignment : Nat) : Nat :=
  ((offset + alignment - 1) / alignment) * alignment

/-- `TIM2Parser::skipAlignment`: move the cursor forward to the next
aligned position (a no-op when already aligned). -/
def skipAlignment (st : ByteStream) (alignment : Nat) : ByteStream :=
  ⟨st.data, alignOffset st.pos alignment⟩

/-- `FileHeader` (16 bytes at file start). -/
structure FileHeader where
  fileId : List Nat
  formatVersion : Nat
  formatId : Nat
  pictures : Nat
  reservedBytes : List Nat
deriving Repr, DecidableEq

/-- `FileHeader::isValid`: the magic must be `'T','I','M','2'`. -/
def FileHeader.isValid (h : FileHeader) : Bool :=
  h.fileId == [84, 73, 77, 50]

/-- `FileHeader::getAlignment`: 128 when `formatId` is `TIM2_ALIGN_128`
(1), else 16. -/
def FileHeader.getAlignment (h : FileHeader) : Nat :=
  if h.formatId = 1 then 128 else 16

/-- The distinct failure modes of `TIM2Parser::loadFile` (the
`m_lastError` strings). -/
inductive ParseError where
  | failedReadFileHeader
  | invalidSignature
  | pictureFailed (i : Nat)
deriving Repr, DecidableEq

/-- `TIM2Parser::parseFileHeader`: read 16 bytes, decode the packed
fields, reject a bad magic.  An unexpected `formatVersion` only warns
and parsing continues. -/
def parseFileHeader (st : ByteStream) : Except ParseError (FileHeader × ByteStream) :=
  match readBytes 16 st with
  | none => .error .failedReadFileHeader
  | some (bs, st1) =>
    let fh : FileHeader :=
      { fileId := bs.take 4
        formatVersion := bs.getD 4 0
        formatId := bs.getD 5 0
        pictures := leNat ((bs.drop 6).take 2)
        reservedBytes := bs.drop 8 }
    if fh.isValid then .ok (fh, st1) else .error .invalidSignature

/-- Decode the packed 48-byte `PictureHeader` struct
(little-endian, `#pragma pack(1)` field offsets). -/
def decodePictureHeader (bs : List Nat) : PictureHeader :=
  { totalSize := leNat (bs.take 4)
    clutSize := leNat ((bs.drop 4).take 4)
    imageSize := leNat ((bs.drop 8).take 4)
    headerSize := leNat ((bs.drop 12).take 2)
    clutColors := leNat ((bs.drop 14).take 2)
    pictFormat := bs.getD 16 0
    mipMapTextures := bs.getD 17 0
    clutType := bs.getD 18 0
    imageType := bs.getD 19 0
    imageWidth := leNat ((bs.drop 20).take 2)
    imageHeight := leNat ((bs.drop 22).take 2)
    gsTex0 := leNat ((bs.drop 24).take 8)
    gsTex1 := leNat ((bs.drop 32).take 8)
    gsTexaFbaPabe := leNat ((bs.drop 40).take 4)
    gsTexClut := leNat ((bs.drop 44).take 4) }

/-- `TIM2Parser::parseMipMapHeader`: two 64-bit GS registers, then one
32-bit size entry per declared mip level (`mipMapTextures` of them),
then skip padding so the header ends on a 16-byte boundary. -/
def parseMipMapHeader (h : PictureHeader) (st : ByteStream) :
    Option (MipMapHeader × ByteStream) :=
  match readBytes 8 st with
  | none => none
  | some (b1, st1) =>
    match readBytes 8 st1 with
    | none => none
    | some (b2, st2) =>
      match readBytes (4 * h.mipMapTextures) st2 with
      | none => none
      | some (bs, st3) =>
        let sizes := (List.range h.mipMapTextures).map fun i => leNat ((bs.drop (4 * i)).take 4)
        let mipHeaderSize := 16 + h.mipMapTextures * 4
        let paddedSize := alignOffset mipHeaderSize 16
        some ({ gsMiptbp1 := leNat b1, gsMiptbp2 := leNat b2, sizes := sizes },
              ⟨st3.data, st3.pos + (paddedSize - mipHeaderSize)⟩)

/-- The size of the headers already consumed before user space:
48 bytes of `PictureHeader` plus the 16-byte-padded mipmap header when
present. -/
def headerDataSize (h : PictureHeader) (hasMip : Bool) : Nat :=
  48 + (if hasMip then alignOffset (16 + h.mipMapTextures * 4) 16 else 0)

/-- `TIM2Parser::parseUserSpace`: read `headerSize - headerDataSize`
bytes verbatim, then probe the first 16 bytes for the `eXt` extended
header and extract the null-terminated comment bounded by
`min(userSpaceSize, extHeader.userSpaceSize)`. -/
def parseUserSpace (h : PictureHeader) (hasMip : Bool) (st : ByteStream) :
    Option ((List Nat × Option ExtendedHeader × List Nat) × ByteStream) :=
  let userSpaceSize := h.headerSize - headerDataSize h hasMip
  if userSpaceSize = 0 then some (([], none, []), st)
  else
    match readBytes userSpaceSize st with
    | none => none
    | some (userData, st1) =>
      if 16 ≤ userSpaceSize then
        let ext : ExtendedHeader :=
          { exHeaderId := userData.take 4
            userSpaceSize := leNat ((userData.drop 4).take 4)
            userDataSize := leNat ((userData.drop 8).take 4)
            reservedWord := leNat ((userData.drop 12).take 4) }
        if ext.isValid then
          let commentOffset := 16 + ext.userDataSize
          let endLimit := min userSpaceSize ext.userSpaceSize
          let comment :=
            if commentOffset < endLimit then
              ((userData.drop commentOffset).take (endLimit - commentOffset)).takeWhile
                (fun b => b != 0)
            else []
          some ((userData, some ext, comment), st1)
        else some ((userData, none, []), st1)
      else some ((userData, none, []), st1)

/-- `TIM2Parser::parsePicture`: picture header, optional mipmap header,
optional user space, then the aligned image and CLUT blobs (each
skipped when its declared size is 0). -/
def parsePicture (st : ByteStream) (alignment : Nat) : Option (Picture × ByteStream) :=
  match readBytes 48 st with
  | none => none
  | some (hb, st1) =>
    let header := decodePictureHeader hb
    let mipStep : Option (Option MipMapHeader × ByteStream) :=
      if 1 < header.mipMapTextures then
        match parseMipMapHeader header st1 with
        | none => none
        | some (m, st2) => some (some m, st2)
      else some (none, st1)
    match mipStep with
    | none => none
    | some (mip, st2) =>
      let userStep :=
        if headerDataSize header mip.isSome < header.headerSize then
          parseUserSpace header mip.isSome st2
        else some (([], none, []), st2)
      match userStep with
      | none => none
      | some ((userData, extHeader, comment), st3) =>
        let st4 := skipAlignment st3 alignment
        let imgStep :=
          if 0 < header.imageSize then readBytes header.imageSize st4
          else some ([], st4)
        match imgStep with
        | none => none
        | some (imageData, st5) =>
          let st6 := skipAlignment st5 alignment
          let clutStep :=
            if 0 < header.clutSize then readBytes header.clutSize st6
            else some ([], st6)
          match clutStep with
          | none => none
          | some (clutData, st7) =>
            some ({ header := header, mipMapHeader := mip, userData := userData,
                    imageData := imageData, clutData := clutData,
                    extHeader := extHeader, comment := comment }, st7)

/-- The picture loop of `TIM2Parser::loadFile`: parse `n` pictures in
sequence, reporting the index of the first failing picture. -/
def parsePictures (st : ByteStream) (alignment : Nat) :
    Nat → Nat → Except ParseError (List Picture × ByteStream)
  | 0, _ => .ok ([], st)
  | Nat.succ m, i =>
    match parsePicture st alignment with
    | none => .error (.pictureFailed i)
    | some (pic, st1) =>
      match parsePictures st1 alignment m (i + 1) with
      | .error e => .error e
      | .ok (pics, st2) => .ok (pic :: pics, st2)

/-- `TIM2Parser::loadFile`: file header, alignment gap, then every
declared picture.  A successful result carries the file header and the
complete picture list; any failure aborts the whole load (`m_valid`
stays false). -/
def loadFile (data : List Nat) : Except ParseError (FileHeader × List Picture) :=
  match parseFileHeader ⟨data, 0⟩ with
  | .error e => .error e
  | .ok (fh, st1) =>
    let alignment := fh.getAlignment
    let st2 := skipAlignment st1 alignment
    match parsePictures st2 alignment fh.pictures 0 with
    | .error e => .error e
    | .ok (pics, _) => .ok (fh, pics)

/-! ## Concrete inputs

Small concrete files, headers and pictures used as counterexamples and
as evaluation witnesses. -/

/-- All declared sections of a parsed picture were read in full: each
blob has exactly its declared byte length and the mipmap header is
present exactly when the level count exceeds 1. -/
def sectionsComplete (pic : Picture) : Prop :=
  pic.imageData.length = pic.header.imageSize ∧
  pic.clutData.length = pic.header.clutSize ∧
  pic.userData.length = pic.header.headerSize - headerDataSize pic.header pic.mipMapHeader.isSome ∧
  (pic.mipMapHeader.isSome = true ↔ 1 < pic.header.mipMapTextures)

/-- A minimal valid TIM2 file: magic, version 4, 16-byte alignment,
zero pictures, zeroed reserved bytes. -/
def minFile : List Nat := [84, 73, 77, 50, 4, 0, 0, 0, 0, 0, 0, 0, 0, 0, 0, 0]

/-- The file header `minFile` parses to. -/
def minFileHeader : FileHeader :=
  { fileId := [84, 73, 77, 50], formatVersion := 4, formatId := 0, pictures := 0,
    reservedBytes := [0, 0, 0, 0, 0, 0, 0, 0] }

/-- The same 16 bytes with a corrupted magic (`TIM3`). -/
def tim3File : List Nat := [84, 73, 77, 51, 4, 0, 0, 0, 0, 0, 0, 0, 0, 0, 0, 0]

/-- An RGB32 CLUT of `n` sentinel colors: entry `j` is `(j, 0, 0, 255)`. -/
def sentinelClut (n : Nat) : List Nat :=
  (List.range n).flatMap fun j => [j, 0, 0, 255]

/-- An IDTEX8 picture with a CSM1 compound RGB32 CLUT of 32 sentinel
colors (clutType 0x43 = compound flag ||| RGB32). -/
def pCompound : Picture :=
  { header := { totalSize := 0, clutSize := 128, imageSize := 1, headerSize := 48,
                clutColors := 32, pictFormat := 0, mipMapTextures := 1, clutType := 0x43,
                imageType := 5, imageWidth := 1, imageHeight := 1, gsTex0 := 0, gsTex1 := 0,
                gsTexaFbaPabe := 0, gsTexClut := 0 }
    mipMapHeader := none, userData := [], imageData := [9], clutData := sentinelClut 32,
    extHeader := none, comment := [] }

/-- A 2x1 IDTEX4 picture whose single image byte is 0xAB, with a
16-color sentinel CLUT. -/
def pIdtex4 : Picture :=
  { header := { totalSize := 0, clutSize := 64, imageSize := 1, headerSize := 48,
                clutColors := 16, pictFormat := 0, mipMapTextures := 1, clutType := 3,
                imageType := 4, imageWidth := 2, imageHeight := 1, gsTex0 := 0, gsTex1 := 0,
                gsTexaFbaPabe := 0, gsTexClut := 0 }
    mipMapHeader := none, userData := [], imageData := [0xAB], clutData := sentinelClut 16,
    extHeader := none, comment := [] }

/-- A 2x1 IDTEX4 picture whose single image byte is 0xAB but whose
CLUT has only 2 colors, so both nibble indices are out of range. -/
def pIdtex4Oor : Picture :=
  { header := { totalSize := 0, clutSize := 8, imageSize := 1, headerSize := 48,
                clutColors := 2, pictFormat := 0, mipMapTextures := 1, clutType := 3,
                imageType := 4, imageWidth := 2, imageHeight := 1, gsTex0 := 0, gsTex1 := 0,
                gsTexaFbaPabe := 0, gsTexClut := 0 }
    mipMapHeader := none, userData := [], imageData := [0xAB], clutData := sentinelClut 2,
    extHeader := none, comment := [] }

/-- A 1x1 picture whose image format byte (9) is outside the
recognized enumeration. -/
def pUnknownFmt : Picture :=
  { header := { totalSize := 0, clutSize := 0, imageSize := 4, headerSize := 48,
                clutColors := 0, pictFormat := 0, mipMapTextures := 1, clutType := 0,
                imageType := 9, imageWidth := 1, imageHeight := 1, gsTex0 := 0, gsTex1 := 0,
                gsTexaFbaPabe := 0, gsTexClut := 0 }
    mipMapHeader := none, userData := [], imageData := [1, 2, 3, 4], clutData := [],
    extHeader := none, comment := [] }

/-- A 1x1 IDTEX8 picture with no CLUT at all (clutSize 0). -/
def pNoClut : Picture :=
  { header := { totalSize := 0, clutSize := 0, imageSize := 1, headerSize := 48,
                clutColors := 0, pictFormat := 0, mipMapTextures := 1, clutType := 0,
                imageType := 5, imageWidth := 1, imageHeight := 1, gsTex0 := 0, gsTex1 := 0,
                gsTexaFbaPabe := 0, gsTexClut := 0 }
    mipMapHeader := none, userData := [], imageData := [0], clutData := [],
    extHeader := none, comment := [] }

/-- A 1x1 IDTEX8 picture whose pixel byte (5) exceeds the 2 decoded
CLUT colors. -/
def pOutOfRange : Picture :=
  { header := { totalSize := 0, clutSize := 8, imageSize := 1, headerSize := 48,
                clutColors := 2, pictFormat := 0, mipMapTextures := 1, clutType := 3,
                imageType := 5, imageWidth := 1, imageHeight := 1, gsTex0 := 0, gsTex1 := 0,
                gsTexaFbaPabe := 0, gsTexClut := 0 }
    mipMapHeader := none, userData := [], imageData := [5], clutData := sentinelClut 2,
    extHeader := none, comment := [] }

/-- A picture whose CLUT declares a positive byte size and the RGB16
entry format but zero colors. -/
def pZeroColors : Picture :=
  { header := { totalSize := 0, clutSize := 4, imageSize := 1, headerSize := 48,
                clutColors := 0, pictFormat := 0, mipMapTextures := 1, clutType := 1,
                imageType := 5, imageWidth := 1, imageHeight := 1, gsTex0 := 0, gsTex1 := 0,
                gsTexaFbaPabe := 0, gsTexClut := 0 }
    mipMapHeader := none, userData := [], imageData := [0], clutData := [0, 0, 0, 0],
    extHeader := none, comment := [] }

/-- A 1x1 RGB16 picture whose single pixel is 0xFFFF. -/
def pRGB16 : Picture :=
  { header := { totalSize := 0, clutSize := 0, imageSize := 2, headerSize := 48,
                clutColors := 0, pictFormat := 0, mipMapTextures := 1, clutType := 0,
                imageType := 1, imageWidth := 1, imageHeight := 1, gsTex0 := 0, gsTex1 := 0,
                gsTexaFbaPabe := 0, gsTexClut := 0 }
    mipMapHeader := none, userData := [], imageData := [0xFF, 0xFF], clutData := [],
    extHeader := none, comment := [] }

/-- A 2x1 RGB32 picture with two literal pixels. -/
def pRGB32 : Picture :=
  { header := { totalSize := 0, clutSize := 0, imageSize := 8, headerSize := 48,
                clutColors := 0, pictFormat := 0, mipMapTextures := 1, clutType := 0,
                imageType := 3, imageWidth := 2, imageHeight := 1, gsTex0 := 0, gsTex1 := 0,
                gsTexaFbaPabe := 0, gsTexClut := 0 }
    mipMapHeader := none, userData := [],
    imageData := [10, 20, 30, 255, 40, 50, 60, 128], clutData := [],
    extHeader := none, comment := [] }

/-- A picture header declaring two mip levels (all other fields
irrelevant to the mipmap header). -/
def hdrTwoMips : PictureHeader :=
  { totalSize := 0, clutSize := 0, imageSize := 0, headerSize := 48,
    clutColors := 0, pictFormat := 0, mipMapTextures := 2, clutType := 0,
    imageType := 3, imageWidth := 4, imageHeight := 4, gsTex0 := 0, gsTex1 := 0,
    gsTexaFbaPabe := 0, gsTexClut := 0 }

/-- 24 zero bytes: exactly the unpadded mipmap header for 2 levels
(8 + 8 + 2 * 4). -/
def mipBytes24 : ByteStream := ⟨List.replicate 24 0, 0⟩

/-! ## Helper lemmas -/

/-- A successful `readBytes` returns exactly `n` bytes and advances
the cursor by `n`. -/
theorem readBytes_some {n : Nat} {st : ByteStream} {bs : List Nat} {st1 : ByteStream}
    (h : readBytes n st = some (bs, st1)) :
    bs.length = n ∧ st1.data = st.data ∧ st1.pos = st.pos + n := by
  unfold readBytes at h
  split at h
  · next hle =>
    simp only [Option.some.injEq, Prod.mk.injEq] at h
    obtain ⟨hbs, hst⟩ := h
    subst hbs
    subst hst
    refine ⟨?_, rfl, rfl⟩
    simp only [List.length_take, List.length_drop]
    omega
  · exact absurd h (by simp)

/-- A successful `parseUserSpace` returns a user-data blob of exactly
the declared user-space size. -/
theorem parseUserSpace_length {hd : PictureHeader} {hasMip : Bool} {st : ByteStream}
    {ud : List Nat} {e : Option ExtendedHeader} {c : List Nat} {st1 : ByteStream}
    (h : parseUserSpace hd hasMip st = some ((ud, e, c), st1)) :
    ud.length = hd.headerSize - headerDataSize hd hasMip := by
  simp only [parseUserSpace] at h
  split at h
  · next h0 =>
    simp only [Option.some.injEq, Prod.mk.injEq] at h
    obtain ⟨⟨hud, _, _⟩, _⟩ := h
    subst hud
    simp [h0]
  · next h0 =>
    split at h
    · exact absurd h (by simp)
    · next bs st2 hread =>
      have hlen := (readBytes_some hread).1
      split at h
      · split at h
        · simp only [Option.some.injEq, Prod.mk.injEq] at h
          obtain ⟨⟨hud, _, _⟩, _⟩ := h
          subst hud
          exact hlen
        · simp only [Option.some.injEq, Prod.mk.injEq] at h
          obtain ⟨⟨hud, _, _⟩, _⟩ := h
          subst hud
          exact hlen
      · simp only [Option.some.injEq, Prod.mk.injEq] at h
        obtain ⟨⟨hud, _, _⟩, _⟩ := h
        subst hud
        exact hlen

/-- A successfully parsed picture has every section complete: each
blob carries exactly its declared byte count, and the mipmap header is
present exactly for level counts above 1. -/
theorem parsePicture_some {st : ByteStream} {alignment : Nat} {pic : Picture} {stOut : ByteStream}
    (h : parsePicture st alignment = some (pic, stOut)) :
    pic.imageData.length = pic.header.imageSize ∧
    pic.clutData.length = pic.header.clutSize ∧
    pic.userData.length = pic.header.headerSize - headerDataSize pic.header pic.mipMapHeader.isSome ∧
    (pic.mipMapHeader.isSome = true ↔ 1 < pic.header.mipMapTextures) := by
  simp only [parsePicture] at h
  split at h
  · exact absurd h (by simp)
  · next hb st1 hread48 =>
    split at h
    · exact absurd h (by simp)
    · next mip st2 hmip =>
      split at h
      · exact absurd h (by simp)
      · next userData extHeader comment st3 huser =>
        split at h
        · exact absurd h (by simp)
        · next imageData st5 himg =>
          split at h
          · exact absurd h (by simp)
          · next clutData st7 hclut =>
            simp only [Option.some.injEq, Prod.mk.injEq] at h
            obtain ⟨hpic, _⟩ := h
            subst hpic
            refine ⟨?_, ?_, ?_, ?_⟩
            · simp only []
              split at himg
              · exact (readBytes_some himg).1
              · next h0 =>
                simp only [Option.some.injEq, Prod.mk.injEq] at himg
                obtain ⟨h1, _⟩ := himg
                subst h1
                simp only [List.length_nil]
                omega
            · simp only []
              split at hclut
              · exact (readBytes_some hclut).1
              · next h0 =>
                simp only [Option.some.injEq, Prod.mk.injEq] at hclut
                obtain ⟨h1, _⟩ := hclut
                subst h1
                simp only [List.length_nil]
                omega
            · simp only []
              split at huser
              · exact parseUserSpace_length huser
              · next h0 =>
                simp only [Option.some.injEq, Prod.mk.injEq] at huser
                obtain ⟨⟨h1, _, _⟩, _⟩ := huser
                subst h1
                simp only [List.length_nil]
                omega
            · simp only []
              split at hmip
              · next hgt =>
                split at hmip
                · exact absurd hmip (by simp)
                · simp only [Option.some.injEq, Prod.mk.injEq] at hmip
                  obtain ⟨h1, _⟩ := hmip
                  subst h1
                  simpa using hgt
              · next hle =>
                simp only [Option.some.injEq, Prod.mk.injEq] at hmip
                obtain ⟨h1, _⟩ := hmip
                subst h1
                simpa using hle

/-- A successful picture loop returns exactly `n` pictures, all of
them complete. -/
theorem parsePictures_ok {alignment : Nat} :
    ∀ (n i : Nat) (st : ByteStream) (pics : List Picture) (stOut : ByteStream),
      parsePictures st alignment n i = .ok (pics, stOut) →
      pics.length = n ∧ ∀ pic ∈ pics, sectionsComplete pic
  | 0, i, st, pics, stOut, h => by
    simp only [parsePictures] at h
    simp only [Except.ok.injEq, Prod.mk.injEq] at h
    obtain ⟨h1, _⟩ := h
    subst h1
    simp
  | Nat.succ m, i, st, pics, stOut, h => by
    simp only [parsePictures] at h
    split at h
    · exact absurd h (by simp)
    · next pic0 st1 hpic =>
      split at h
      · exact absurd h (by simp)
      · next pics0 st2 hrec =>
        simp only [Except.ok.injEq, Prod.mk.injEq] at h
        obtain ⟨h1, _⟩ := h
        subst h1
        obtain ⟨hlen, hall⟩ := parsePictures_ok m (i + 1) st1 pics0 st2 hrec
        have hc := parsePicture_some hpic
        refine ⟨by simp [hlen], ?_⟩
        intro pic hmem
        rcases List.mem_cons.mp hmem with h1 | h1
        · subst h1
          exact ⟨hc.1, hc.2.1, hc.2.2.1, hc.2.2.2⟩
        · exact hall pic h1

/-- Conjunction of a masked value with a shifted mask, restated
through a right shift. -/
theorem and_shiftLeft_mask (v m k : Nat) : v &&& (m <<< k) = ((v >>> k) &&& m) <<< k := by
  apply Nat.eq_of_testBit_eq
  intro i
  simp only [Nat.testBit_and, Nat.testBit_shiftLeft, Nat.testBit_shiftRight]
  by_cases h : k ≤ i
  · simp [h, Nat.add_sub_cancel' h, Bool.and_comm, Bool.and_left_comm, Bool.and_assoc]
  · simp [h]

/-- The low 5-bit mask extracts bits [0:5). -/
theorem mask1F (v : Nat) : v &&& 0x001F = v % 32 := by
  have h := Nat.and_pow_two_sub_one_eq_mod v 5
  norm_num at h
  exact h

/-- The 0x03E0 mask extracts bits [5:10), left-aligned at bit 5. -/
theorem mask3E0 (v : Nat) : v &&& 0x03E0 = v / 32 % 32 * 32 := by
  calc v &&& 0x03E0 = ((v >>> 5) &&& 31) <<< 5 := by
        rw [show (0x03E0 : Nat) = 31 <<< 5 from by decide, and_shiftLeft_mask]
    _ = v / 32 % 32 * 32 := by
        rw [Nat.shiftRight_eq_div_pow, Nat.shiftLeft_eq]
        have h := Nat.and_pow_two_sub_one_eq_mod (v / 2 ^ 5) 5
        norm_num at h ⊢
        try rw [h]

/-- The 0x7C00 mask extracts bits [10:15), left-aligned at bit 10. -/
theorem mask7C00 (v : Nat) : v &&& 0x7C00 = v / 1024 % 32 * 1024 := by
  calc v &&& 0x7C00 = ((v >>> 10) &&& 31) <<< 10 := by
        rw [show (0x7C00 : Nat) = 31 <<< 10 from by decide, and_shiftLeft_mask]
    _ = v / 1024 % 32 * 1024 := by
        rw [Nat.shiftRight_eq_div_pow, Nat.shiftLeft_eq]
        have h := Nat.and_pow_two_sub_one_eq_mod (v / 2 ^ 10) 5
        norm_num at h ⊢
        try rw [h]

/-- The 0x8000 mask extracts bit 15. -/
theorem mask8000 (v : Nat) : v &&& 0x8000 = v / 32768 % 2 * 32768 := by
  calc v &&& 0x8000 = ((v >>> 15) &&& 1) <<< 15 := by
        rw [show (0x8000 : Nat) = 1 <<< 15 from by decide, and_shiftLeft_mask]
    _ = v / 32768 % 2 * 32768 := by
        rw [Nat.shiftRight_eq_div_pow, Nat.and_one_is_mod, Nat.shiftLeft_eq]
        try norm_num

/-- For a 5-bit channel, the or of the shifted copies is their sum. -/
theorem orFive : ∀ c : Fin 32, ((8 * c.val) ||| (c.val / 4)) % 256 = 8 * c.val + c.val / 4 := by
  decide

/-- Unbundled form of `orFive`. -/
theorem expandFive (c : Nat) (hc : c < 32) : ((8 * c) ||| (c / 4)) % 256 = 8 * c + c / 4 :=
  orFive ⟨c, hc⟩

/-- The bit-level 5:5:5:1 decode of `Color16.toColor32`, restated
arithmetically: each 5-bit channel `c` becomes `8 * c + c / 4` (shift
left 3 with the top 3 bits replicated into the low bits), and bit 15
selects alpha 255 or 0. -/
theorem toColor32_spec (v : Nat) :
    Color16.toColor32 v =
      ⟨8 * (v % 32) + (v % 32) / 4,
       8 * (v / 32 % 32) + (v / 32 % 32) / 4,
       8 * (v / 1024 % 32) + (v / 1024 % 32) / 4,
       if v / 32768 % 2 = 1 then 255 else 0⟩ := by
  unfold Color16.toColor32
  rw [Color32.mk.injEq]
  refine ⟨?_, ?_, ?_, ?_⟩
  · rw [mask1F, Nat.shiftLeft_eq, Nat.shiftRight_eq_div_pow]
    have h1 : v % 32 * 2 ^ 3 = 8 * (v % 32) := by ring
    have h2 : v % 32 / 2 ^ 2 = v % 32 / 4 := by norm_num
    rw [h1, h2, expandFive _ (Nat.mod_lt _ (by norm_num))]
  · rw [mask3E0, Nat.shiftRight_eq_div_pow, Nat.shiftRight_eq_div_pow]
    have h1 : v / 32 % 32 * 32 / 2 ^ 2 = 8 * (v / 32 % 32) := by omega
    have h2 : v / 32 % 32 * 32 / 2 ^ 7 = v / 32 % 32 / 4 := by omega
    rw [h1, h2, expandFive _ (Nat.mod_lt _ (by norm_num))]
  · rw [mask7C00, Nat.shiftRight_eq_div_pow, Nat.shiftRight_eq_div_pow]
    have h1 : v / 1024 % 32 * 1024 / 2 ^ 7 = 8 * (v / 1024 % 32) := by omega
    have h2 : v / 1024 % 32 * 1024 / 2 ^ 12 = v / 1024 % 32 / 4 := by omega
    rw [h1, h2, expandFive _ (Nat.mod_lt _ (by norm_num))]
  · rw [mask8000]
    rcases Nat.mod_two_eq_zero_or_one (v / 32768) with h | h <;> simp [h]

/-! ## Claim theorems -/

/-- C1 (counterexample): the claim says the default color for an
unrecognized image format is transparent black (0,0,0,0); for the 1x1
picture with format byte 9 the decoded pixel is in fact opaque black
(0,0,0,255), because the C++ `Color32` default constructor sets alpha
to 255. -/
theorem unknownFormat_transparent_counterexample :
    pUnknownFmt.decodeImage 0 = [⟨0, 0, 0, 255⟩] ∧
      (⟨0, 0, 0, 255⟩ : Color32) ≠ ⟨0, 0, 0, 0⟩ := by
  decide

/-- C1 (amended): for an image format byte outside the recognized
enumeration, for an indexed pixel without a CLUT, and for an indexed
pixel whose palette index is out of range of the decoded CLUT, the
decoded color is the default-constructed opaque black (0,0,0,255). -/
theorem getPixelColor_defaultBlack (p : Picture) (x y lvl : Nat) :
    (p.header.imageType = 0 ∨ 5 < p.header.imageType →
      p.getPixelColor x y lvl = ⟨0, 0, 0, 255⟩) ∧
    ((p.header.imageType = 4 ∨ p.header.imageType = 5) → p.header.hasClut = false →
      p.getPixelColor x y lvl = ⟨0, 0, 0, 255⟩) ∧
    (p.header.imageType = 5 → p.header.hasClut = true →
      p.getClutColors.length ≤
        (p.imageData.drop (p.getImageOffset lvl)).getD (y * p.getMipMapWidth lvl + x) 0 →
      p.getPixelColor x y lvl = ⟨0, 0, 0, 255⟩) ∧
    (p.header.imageType = 4 → p.header.hasClut = true →
      p.getClutColors.length ≤
        (if (y * p.getMipMapWidth lvl + x) % 2 = 1
         then ((p.imageData.drop (p.getImageOffset lvl)).getD
            ((y * p.getMipMapWidth lvl + x) / 2) 0) >>> 4
         else ((p.imageData.drop (p.getImageOffset lvl)).getD
            ((y * p.getMipMapWidth lvl + x) / 2) 0) &&& 15) →
      p.getPixelColor x y lvl = ⟨0, 0, 0, 255⟩) := by
  refine ⟨?_, ?_, ?_, ?_⟩
  · intro hfmt
    simp only [Picture.getPixelColor, PictureHeader.getImagePixelFormat]
    rw [if_neg (by omega), if_neg (by omega), if_neg (by omega), if_neg (by omega),
      if_neg (by omega)]
    rfl
  · intro hfmt hclut
    simp only [Picture.getPixelColor, PictureHeader.getImagePixelFormat]
    rcases hfmt with h | h <;> simp [h, hclut, Color32.init]
  · intro hfmt hclut hidx
    simp only [Picture.getPixelColor, PictureHeader.getImagePixelFormat]
    rw [if_neg (by omega), if_neg (by omega), if_neg (by omega), if_pos (by omega)]
    simp only [hclut, if_true]
    rw [if_neg (by omega)]
    rfl
  · intro hfmt hclut hidx
    simp only [Picture.getPixelColor, PictureHeader.getImagePixelFormat]
    rw [if_neg (by omega), if_neg (by omega), if_neg (by omega), if_neg (by omega),
      if_pos (by omega)]
    simp only [hclut, if_true]
    by_cases hpar : (y * p.getMipMapWidth lvl + x) % 2 = 1
    · rw [if_pos hpar] at hidx
      rw [if_pos hpar, if_neg (by omega)]
      rfl
    · rw [if_neg hpar] at hidx
      rw [if_neg hpar, if_neg (by omega)]
      rfl

/-- C1 (witness): the amended theorem evaluated on the four concrete
pictures, one per default-color case. -/
theorem getPixelColor_defaultBlack_witness :
    pUnknownFmt.getPixelColor 0 0 0 = ⟨0, 0, 0, 255⟩ ∧
    pNoClut.getPixelColor 0 0 0 = ⟨0, 0, 0, 255⟩ ∧
    pOutOfRange.getPixelColor 0 0 0 = ⟨0, 0, 0, 255⟩ ∧
    pIdtex4Oor.getPixelColor 0 0 0 = ⟨0, 0, 0, 255⟩ :=
  ⟨(getPixelColor_defaultBlack pUnknownFmt 0 0 0).1 (Or.inr (by decide)),
   (getPixelColor_defaultBlack pNoClut 0 0 0).2.1 (Or.inr (by decide)) (by decide),
   (getPixelColor_defaultBlack pOutOfRange 0 0 0).2.2.1 (by decide) (by decide) (by decide),
   (getPixelColor_defaultBlack pIdtex4Oor 0 0 0).2.2.2 (by decide) (by decide) (by decide)⟩

/-- C2 (counterexample): for a header declaring 2 mip levels, parsing
the mipmap header yields a sizes array with 2 entries, not the
levelCount - 1 = 1 the claim states: the parser reads one entry per
level including the base. -/
theorem mipMapSizes_count_counterexample :
    (parseMipMapHeader hdrTwoMips mipBytes24).map (fun r => r.1.sizes.length) = some 2 ∧
      hdrTwoMips.mipMapTextures - 1 ≠ 2 := by
  decide

/-- C2 (amended): for every picture header with mip level count
greater than 1, the parsed MipMapHeader sizes array contains exactly
levelCount 32-bit entries, one per level including the base. -/
theorem parseMipMapHeader_sizes_count {h : PictureHeader} {st : ByteStream}
    {m : MipMapHeader} {st1 : ByteStream} (h1 : 1 < h.mipMapTextures)
    (hp : parseMipMapHeader h st = some (m, st1)) :
    m.sizes.length = h.mipMapTextures := by
  unfold parseMipMapHeader at hp
  split at hp
  · exact absurd hp (by simp)
  · split at hp
    · exact absurd hp (by simp)
    · split at hp
      · exact absurd hp (by simp)
      · simp only [Option.some.injEq, Prod.mk.injEq] at hp
        obtain ⟨hm, _⟩ := hp
        subst hm
        simp

/-- C2 (witness): the amended theorem evaluated on the 2-level header
and 24 zero bytes. -/
theorem parseMipMapHeader_sizes_count_witness :
    (MipMapHeader.mk 0 0 [0, 0]).sizes.length = hdrTwoMips.mipMapTextures :=
  parseMipMapHeader_sizes_count (by decide)
    (show parseMipMapHeader hdrTwoMips mipBytes24 =
        some (⟨0, 0, [0, 0]⟩, ⟨List.replicate 24 0, 32⟩) from by rfl)

/-- C3: every read in the parser is bounds-checked (`readBytes` fails
whenever a section declares more bytes than remain), and every failure
aborts the whole load with an error carrying no pictures.  Hence a
successful `loadFile` implies every declared section was read in full:
the picture count matches the file header and each picture's blobs
have exactly their declared sizes; a file in which any section
over-declares can only produce an error, never a partial result. -/
theorem loadFile_ok (data : List Nat) {fh : FileHeader} {pics : List Picture}
    (h : loadFile data = .ok (fh, pics)) :
    pics.length = fh.pictures ∧ ∀ pic ∈ pics, sectionsComplete pic := by
  simp only [loadFile] at h
  split at h
  · exact absurd h (by simp)
  · next fh0 st1 hfh =>
    split at h
    · exact absurd h (by simp)
    · next pics0 st2 hps =>
      simp only [Except.ok.injEq, Prod.mk.injEq] at h
      obtain ⟨h1, h2⟩ := h
      subst h1
      subst h2
      exact parsePictures_ok _ _ _ _ _ hps

/-- C3 (witness): the theorem evaluated on the minimal valid file. -/
theorem loadFile_ok_witness :
    ([] : List Picture).length = minFileHeader.pictures ∧
      ∀ pic ∈ ([] : List Picture), sectionsComplete pic :=
  loadFile_ok minFile (by rfl)

/-- C4: in CSM1 compound mode `getClutColors` looks entry `i` up at
`csm1CompoundIndex i`, which inside each 32-entry block maps [8,16)
up by 8 and [16,24) down by 8 and fixes everything else; the remap is
a self-inverse permutation, and CSM2 or non-compound CSM1 entries are
read in declared order. -/
theorem getClutColors_compound_remap :
    (∀ i, csm1CompoundIndex (csm1CompoundIndex i) = i) ∧
    (∀ i, i % 32 < 8 ∨ 24 ≤ i % 32 → csm1CompoundIndex i = i) ∧
    (∀ i, 8 ≤ i % 32 → i % 32 < 16 → csm1CompoundIndex i = i + 8) ∧
    (∀ i, 16 ≤ i % 32 → i % 32 < 24 → csm1CompoundIndex i = i - 8) ∧
    (∀ (p : Picture) (i : Nat), p.header.hasClut = true → p.header.isClutCSM2 = false →
      p.header.isClutCompound = true → i < p.header.clutColors →
      p.getClutColors.getD i Color32.init =
        clutEntryAt p.header.getClutPixelFormat p.clutData (csm1CompoundIndex i)) ∧
    (∀ (p : Picture) (i : Nat), p.header.hasClut = true →
      (p.header.isClutCSM2 = true ∨ p.header.isClutCompound = false) →
      i < p.header.clutColors →
      p.getClutColors.getD i Color32.init =
        clutEntryAt p.header.getClutPixelFormat p.clutData i) := by
  refine ⟨?_, ?_, ?_, ?_, ?_, ?_⟩
  · intro i
    simp only [csm1CompoundIndex]
    split_ifs <;> omega
  · intro i hi
    simp only [csm1CompoundIndex]
    split_ifs <;> omega
  · intro i hi1 hi2
    simp only [csm1CompoundIndex]
    split_ifs <;> omega
  · intro i hi1 hi2
    simp only [csm1CompoundIndex]
    split_ifs <;> omega
  · intro p i hc hcsm hcomp hi
    unfold Picture.getClutColors
    rw [if_neg (by simp [hc])]
    simp [List.getD_eq_getElem?_getD, List.getElem?_map, List.getElem?_range, hi, hcsm, hcomp]
  · intro p i hc h2 hi
    unfold Picture.getClutColors
    rw [if_neg (by simp [hc])]
    rcases h2 with h2 | h2 <;>
      simp [List.getD_eq_getElem?_getD, List.getElem?_map, List.getElem?_range, hi, h2]

/-- C4 (witness): on the 32-entry sentinel compound palette, entry 9
decodes the raw color stored at index 17, entry 17 the color at index
9, and entry 2 (outside [8,24) in its block) its own color. -/
theorem getClutColors_compound_remap_witness :
    pCompound.getClutColors.getD 9 Color32.init = ⟨17, 0, 0, 255⟩ ∧
    pCompound.getClutColors.getD 17 Color32.init = ⟨9, 0, 0, 255⟩ ∧
    pCompound.getClutColors.getD 2 Color32.init = ⟨2, 0, 0, 255⟩ := by
  obtain ⟨hinv, hfix, hup, hdown, hcomp, hord⟩ := getClutColors_compound_remap
  refine ⟨?_, ?_, ?_⟩
  · rw [hcomp pCompound 9 (by decide) (by decide) (by decide) (by decide)]
    decide
  · rw [hcomp pCompound 17 (by decide) (by decide) (by decide) (by decide)]
    decide
  · rw [hcomp pCompound 2 (by decide) (by decide) (by decide) (by decide)]
    decide

/-- C5: for every picture and mip level below the declared level
count, `decodeImage` returns exactly
`max 1 (width >> level) * max 1 (height >> level)` colors. -/
theorem decodeImage_length (p : Picture) (mipLevel : Nat)
    (h : mipLevel < p.header.mipMapTextures) :
    (p.decodeImage mipLevel).length =
      max 1 (p.header.imageWidth >>> mipLevel) * max 1 (p.header.imageHeight >>> mipLevel) := by
  unfold Picture.decodeImage
  rw [if_neg (by omega)]
  simp only [List.length_flatMap, Function.comp_def, List.length_map, List.length_range,
    List.map_const', List.sum_replicate, smul_eq_mul]
  simp [Picture.getMipMapWidth, Picture.getMipMapHeight, Nat.mul_comm]

/-- C5 (witness): the theorem evaluated on the concrete 2x1 RGB32
picture at mip level 0. -/
theorem decodeImage_length_witness :
    (pRGB32.decodeImage 0).length =
      max 1 (pRGB32.header.imageWidth >>> 0) * max 1 (pRGB32.header.imageHeight >>> 0) :=
  decodeImage_length pRGB32 0 (by decide)

/-- C6: for every picture and every requested mip level at or above
the declared level count, `decodeImage` returns the empty list. -/
theorem decodeImage_out_of_range (p : Picture) (mipLevel : Nat)
    (h : p.header.mipMapTextures ≤ mipLevel) :
    p.decodeImage mipLevel = [] := by
  unfold Picture.decodeImage
  rw [if_pos h]

/-- C6 (witness): the theorem evaluated at the first out-of-range
level of the concrete RGB32 picture. -/
theorem decodeImage_out_of_range_witness : pRGB32.decodeImage 1 = [] :=
  decodeImage_out_of_range pRGB32 1 (by decide)

/-- C7: every 16-bit RGB16 value decodes with R from bits [0:5),
G from [5:10), B from [10:15), each 5-bit channel c expanded to
`8 * c + c / 4` (shift left 3, top 3 bits replicated into the low
bits), and alpha 255 exactly when bit 15 is set; the same
`Color16.toColor32` rule is applied to RGB16 image pixels (read
little-endian from the image blob) and to RGB16 CLUT entries. -/
theorem rgb16_decode_rule :
    (∀ v : Nat, Color16.toColor32 v =
      ⟨8 * (v % 32) + (v % 32) / 4,
       8 * (v / 32 % 32) + (v / 32 % 32) / 4,
       8 * (v / 1024 % 32) + (v / 1024 % 32) / 4,
       if v / 32768 % 2 = 1 then 255 else 0⟩) ∧
    (∀ (p : Picture) (x y lvl : Nat), p.header.imageType = 1 →
      p.getPixelColor x y lvl =
        Color16.toColor32
          ((p.imageData.drop (p.getImageOffset lvl)).getD
              ((y * p.getMipMapWidth lvl + x) * 2) 0 +
            256 * (p.imageData.drop (p.getImageOffset lvl)).getD
              ((y * p.getMipMapWidth lvl + x) * 2 + 1) 0)) ∧
    (∀ (data : List Nat) (i : Nat),
      clutEntryAt 1 data i =
        Color16.toColor32 (data.getD (i * 2) 0 + 256 * data.getD (i * 2 + 1) 0)) := by
  refine ⟨toColor32_spec, ?_, ?_⟩
  · intro p x y lvl hfmt
    simp only [Picture.getPixelColor, PictureHeader.getImagePixelFormat]
    rw [if_neg (by omega), if_neg (by omega), if_pos (by omega)]
  · intro data i
    simp [clutEntryAt]

/-- C7 (witness): the rule evaluated at 0x801F (pure red with alpha),
at the all-ones pixel of the concrete RGB16 picture, and at a concrete
RGB16 CLUT entry. -/
theorem rgb16_decode_rule_witness :
    Color16.toColor32 32799 = ⟨255, 0, 0, 255⟩ ∧
    pRGB16.getPixelColor 0 0 0 = Color16.toColor32 65535 ∧
    clutEntryAt 1 [31, 0] 0 = Color16.toColor32 31 := by
  obtain ⟨hval, hpix, hent⟩ := rgb16_decode_rule
  refine ⟨?_, ?_, ?_⟩
  · rw [hval 32799]
    decide
  · rw [hpix pRGB16 0 0 0 (by decide)]
    decide
  · rw [hent [31, 0] 0]
    decide

/-- C8: an IDTEX4 pixel at linear index `pixelIdx` is read from byte
`pixelIdx / 2` of its mip level, taking the low nibble (mod 16) for an
even pixel and the high nibble (div 16) for an odd pixel, and looking
the nibble up in the decoded CLUT. -/
theorem idtex4_nibble_order (p : Picture) (x y lvl : Nat)
    (hfmt : p.header.imageType = 4) (hclut : p.header.hasClut = true) :
    p.getPixelColor x y lvl =
      (let pixelIdx := y * p.getMipMapWidth lvl + x
       let packed := (p.imageData.drop (p.getImageOffset lvl)).getD (pixelIdx / 2) 0
       let colorIdx := if pixelIdx % 2 = 1 then packed / 16 else packed % 16
       if colorIdx < p.getClutColors.length then p.getClutColors.getD colorIdx Color32.init
       else Color32.init) := by
  simp only [Picture.getPixelColor, PictureHeader.getImagePixelFormat]
  rw [if_neg (by omega), if_neg (by omega), if_neg (by omega), if_neg (by omega),
    if_pos (by omega)]
  simp only [hclut, if_true]
  have hand : ∀ m : Nat, m &&& 15 = m % 16 := fun m => by
    have h := Nat.and_pow_two_sub_one_eq_mod m 4
    norm_num at h
    exact h
  have hshift : ∀ m : Nat, m >>> 4 = m / 16 := fun m => by
    have h := Nat.shiftRight_eq_div_pow m 4
    norm_num at h
    exact h
  simp only [hand, hshift]

/-- C8 (witness): for the concrete 2x1 IDTEX4 picture whose byte is
0xAB, the even pixel decodes palette entry 0xB and the odd pixel
palette entry 0xA. -/
theorem idtex4_nibble_order_witness :
    pIdtex4.getPixelColor 0 0 0 = ⟨11, 0, 0, 255⟩ ∧
    pIdtex4.getPixelColor 1 0 0 = ⟨10, 0, 0, 255⟩ := by
  constructor
  · rw [idtex4_nibble_order pIdtex4 0 0 0 (by decide) (by decide)]
    decide
  · rw [idtex4_nibble_order pIdtex4 1 0 0 (by decide) (by decide)]
    decide

/-- C9: for every input of at least one file header whose first 4
bytes differ from the magic "TIM2", `loadFile` fails with the
invalid-signature error; the error result carries no pictures. -/
theorem loadFile_badMagic (data : List Nat) (hlen : 16 ≤ data.length)
    (hmagic : data.take 4 ≠ [84, 73, 77, 50]) :
    loadFile data = .error .invalidSignature := by
  simp only [loadFile, parseFileHeader]
  have hrb : readBytes 16 ⟨data, 0⟩ = some (data.take 16, ⟨data, 16⟩) := by
    simp [readBytes, hlen]
  rw [hrb]
  simp only []
  rw [if_neg]
  simp only [FileHeader.isValid]
  intro hbeq
  exact hmagic (by simpa [List.take_take] using (beq_iff_eq.mp hbeq))

/-- C9 (witness): the theorem evaluated on the 16-byte file whose
magic reads "TIM3". -/
theorem loadFile_badMagic_witness : loadFile tim3File = .error .invalidSignature :=
  loadFile_badMagic tim3File (by decide) (by decide)

/-- C10 (counterexample): the claim says `getClutColors` is empty iff
`hasClut()` is false, but for a picture with a positive CLUT size, a
valid entry format and `clutColors = 0`, `hasClut()` is true while
`getClutColors` is empty. -/
theorem getClutColors_empty_iff_counterexample :
    pZeroColors.header.hasClut = true ∧ pZeroColors.getClutColors = [] := by
  decide

/-- C10 (amended): `getClutColors` is empty whenever `hasClut()` is
false, and otherwise returns exactly `clutColors` entries (hence it is
also empty when `clutColors = 0`). -/
theorem getClutColors_empty_or_count (p : Picture) :
    (p.header.hasClut = false → p.getClutColors = []) ∧
    (p.header.hasClut = true → p.getClutColors.length = p.header.clutColors) := by
  constructor
  · intro hc
    unfold Picture.getClutColors
    rw [if_pos hc]
  · intro hc
    unfold Picture.getClutColors
    rw [if_neg (by simp [hc])]
    simp

/-- C10 (witness): the amended theorem evaluated on the 32-color
compound palette picture. -/
theorem getClutColors_empty_or_count_witness :
    pCompound.getClutColors.length = pCompound.header.clutColors :=
  (getClutColors_empty_or_count pCompound).2 (by decide)

end Tim2
